import Mathlib

/-!
Verification of the candle_keep discovery-and-scoring pipeline.

This file gives a shallow embedding of the pipeline's core operations:

* the `github_search_tasks` work queue and the `claim_github_tasks` RPC
  (src/web/supabase/migrations/002_create_claim_tasks_rpc.sql),
* the task seeder (src/web/src/lib/github/task-seeder.ts),
* the rate-limited search client `searchRepositories`
  (src/lib/github/client.ts),
* the discovery driver's per-task crawl `processTask` / `updateTaskStatus`
  (src/app/api/cron/github-discover/route.ts),
* the scoring endpoint's two trend computation paths
  (src/app/api/cron/github-score/route.ts and
  src/web/supabase/migrations/003_create_compute_trends_rpc.sql).

Timestamps are modelled as integers measured in days, so an SQL interval of
`refresh_every_days` days is the integer `refresh_every_days`.
-/

namespace CandleKeep

/-- Calendar date, year / month / day, as produced by `formatDate` and stored
in the DATE columns. -/
structure Ymd where
  y : Nat
  m : Nat
  d : Nat
deriving DecidableEq, Repr

/-- Lexicographic date comparison, the comparison JS `Date` values get in
`generateMonthlyWindows`. -/
def Ymd.le (a b : Ymd) : Bool :=
  a.y < b.y || (a.y = b.y && (a.m < b.m || (a.m = b.m && a.d ≤ b.d)))

def Ymd.lt (a b : Ymd) : Bool :=
  a.y < b.y || (a.y = b.y && (a.m < b.m || (a.m = b.m && a.d < b.d)))

/-- Task status enum of `github_search_tasks.status`
(001 schema migration, CHECK constraint). -/
inductive TaskStatus where
  | ready
  | in_progress
  | done
  | needs_split
  | disabled
deriving DecidableEq, Repr

/-- One row of `github_search_tasks` (001 schema migration). -/
structure Task where
  id : Nat
  created_from : Ymd
  created_to : Ymd
  stars_min : Nat
  stars_max : Option Nat
  pushed_after : Option Ymd
  status : TaskStatus
  page : Nat
  refresh_every_days : Nat
  last_started_at : Option Int
  last_completed_at : Option Int
  last_error : Option String
deriving DecidableEq, Repr

/-- The WHERE clause of `claim_github_tasks`: status `ready`, or `done` with
`last_completed_at` NULL or older than `refresh_every_days` before NOW(). -/
def eligibleForClaim (now : Int) (t : Task) : Bool :=
  t.status = TaskStatus.ready ||
    (t.status = TaskStatus.done &&
      (match t.last_completed_at with
       | none => true
       | some lc => lc < now - (t.refresh_every_days : Int)))

/-- The SET clause of the `claim_github_tasks` UPDATE: status `in_progress`,
`last_started_at = NOW()`, `last_error = NULL`, and `page` reset to 1 exactly
when the row's prior status was `done`. -/
def claimUpdate (now : Int) (t : Task) : Task :=
  { t with
    status := TaskStatus.in_progress
    last_started_at := some now
    last_error := none
    page := if t.status = TaskStatus.done then 1 else t.page }

/-- `claim_github_tasks(p_limit)` with the store's row locks made explicit:
`locked` is the set of row ids currently locked by another transaction, which
`FOR UPDATE SKIP LOCKED` silently skips.  Returns the claimed rows (as
RETURNING yields them, post-UPDATE) and the table after the UPDATE.  The SQL
has no ORDER BY, so any selection of up to `p_limit` eligible rows is a valid
execution; the model takes the first ones in table order. -/
def claimGithubTasksLocked (locked : List Nat) (p_limit : Nat) (now : Int)
    (tasks : List Task) : List Task × List Task :=
  let sel := (tasks.filter
    (fun t => eligibleForClaim now t && !(locked.contains t.id))).take p_limit
  let cids := sel.map Task.id
  (sel.map (claimUpdate now),
   tasks.map (fun t => if cids.contains t.id then claimUpdate now t else t))

/-- `claim_github_tasks(p_limit)` run with no competing transaction. -/
def claimGithubTasks (p_limit : Nat) (now : Int) (tasks : List Task) :
    List Task × List Task :=
  claimGithubTasksLocked [] p_limit now tasks

/-- Claim C1: every task returned by `claim_github_tasks(p_limit)` had prior
status `ready`, or `done` with `last_completed_at` null or older than
`refresh_every_days` before NOW(); each returned task has status
`in_progress`, `last_started_at` stamped, `last_error` cleared, and `page`
reset to 1 exactly for prior-`done` tasks while prior-`ready` tasks keep their
stored page; at most `p_limit` tasks are returned. -/
theorem claim_tasks_spec (p_limit : Nat) (now : Int) (tasks : List Task) :
    (claimGithubTasks p_limit now tasks).1.length ≤ p_limit ∧
    ∀ r ∈ (claimGithubTasks p_limit now tasks).1,
      ∃ o, o ∈ tasks ∧ o.id = r.id ∧ eligibleForClaim now o = true ∧
        r.status = TaskStatus.in_progress ∧
        r.last_started_at = some now ∧
        r.last_error = none ∧
        r.page = (if o.status = TaskStatus.done then 1 else o.page) := by
  constructor
  · simp only [claimGithubTasks, claimGithubTasksLocked, List.length_map]
    exact List.length_take_le p_limit _
  · intro r hr
    simp only [claimGithubTasks, claimGithubTasksLocked, List.mem_map] at hr
    obtain ⟨o, ho, rfl⟩ := hr
    have ho' := List.mem_of_mem_take ho
    have := List.mem_filter.mp ho'
    refine ⟨o, this.1, rfl, ?_, rfl, rfl, rfl, rfl⟩
    have h := this.2
    simp only [Bool.and_eq_true] at h
    exact h.1

/-- Concrete instance for `claim_tasks_spec`: a single ready task is claimed
and the reported facts hold for it. -/
def sampleReadyTask : Task :=
  { id := 7
    created_from := ⟨2020, 1, 1⟩
    created_to := ⟨2020, 1, 31⟩
    stars_min := 100
    stars_max := some 200
    pushed_after := none
    status := TaskStatus.ready
    page := 3
    refresh_every_days := 7
    last_started_at := none
    last_completed_at := none
    last_error := some "old error" }

theorem claim_tasks_spec_witness :
    ∃ o, o ∈ [sampleReadyTask] ∧ o.id = (claimUpdate 5 sampleReadyTask).id ∧
      eligibleForClaim 5 o = true ∧
      (claimUpdate 5 sampleReadyTask).status = TaskStatus.in_progress ∧
      (claimUpdate 5 sampleReadyTask).last_started_at = some 5 ∧
      (claimUpdate 5 sampleReadyTask).last_error = none ∧
      (claimUpdate 5 sampleReadyTask).page =
        (if o.status = TaskStatus.done then 1 else o.page) :=
  (claim_tasks_spec 1 5 [sampleReadyTask]).2 (claimUpdate 5 sampleReadyTask)
    (by decide)

theorem claimed_ids (locked : List Nat) (p : Nat) (n : Int) (tasks : List Task) :
    (claimGithubTasksLocked locked p n tasks).1.map Task.id =
      ((tasks.filter
        (fun t => eligibleForClaim n t && !(locked.contains t.id))).take p).map
        Task.id := by
  simp only [claimGithubTasksLocked, List.map_map]
  rfl

/-- Claim C2: two concurrent invocations of `claim_github_tasks` never return
the same task id.  Two serializations of the race are covered: (interleaved)
the second call runs while the first still holds its row locks, so
`FOR UPDATE SKIP LOCKED` silently skips those rows; (serialized) the second
call runs after the first call's UPDATE committed, so the claimed rows are
`in_progress` and fail the eligibility predicate.  Either way at most one
caller obtains each task. -/
theorem claim_tasks_concurrent_exclusive (limA limB : Nat) (nowA nowB : Int)
    (tasks : List Task) :
    (∀ i ∈ (claimGithubTasks limA nowA tasks).1.map Task.id,
      i ∉ (claimGithubTasksLocked
            ((claimGithubTasks limA nowA tasks).1.map Task.id)
            limB nowB tasks).1.map Task.id) ∧
    (∀ i ∈ (claimGithubTasks limA nowA tasks).1.map Task.id,
      i ∉ (claimGithubTasks limB nowB
            (claimGithubTasks limA nowA tasks).2).1.map Task.id) := by
  constructor
  · intro i hiA hiB
    rw [claimed_ids] at hiB
    obtain ⟨t, ht, rfl⟩ := List.mem_map.mp hiB
    have ht' := List.mem_filter.mp (List.mem_of_mem_take ht)
    have h2 := ht'.2
    simp only [Bool.and_eq_true, Bool.not_eq_true'] at h2
    exact absurd hiA (by simpa using h2.2)
  · intro i hiA hiB
    simp only [claimGithubTasks] at hiA hiB
    rw [claimed_ids] at hiA hiB
    obtain ⟨t', ht', rfl⟩ := List.mem_map.mp hiB
    have hmem := List.mem_filter.mp (List.mem_of_mem_take ht')
    have hpred := hmem.2
    simp only [Bool.and_eq_true] at hpred
    have helig : eligibleForClaim nowB t' = true := hpred.1
    have hmem2 := hmem.1
    simp only [claimGithubTasks, claimGithubTasksLocked, List.mem_map] at hmem2
    obtain ⟨t, htm, hteq⟩ := hmem2
    by_cases hc : (((tasks.filter
        (fun t => eligibleForClaim nowA t && !(List.contains [] t.id))).take
          limA).map Task.id).contains t.id = true
    · rw [if_pos hc] at hteq
      rw [← hteq] at helig
      simp [eligibleForClaim, claimUpdate] at helig
    · rw [if_neg (by simpa using hc)] at hteq
      subst hteq
      exact hc (by simpa using hiA)

theorem claim_tasks_concurrent_exclusive_witness :
    7 ∉ (claimGithubTasksLocked
          ((claimGithubTasks 1 0 [sampleReadyTask]).1.map Task.id)
          1 0 [sampleReadyTask]).1.map Task.id ∧
    7 ∉ (claimGithubTasks 1 0
          (claimGithubTasks 1 0 [sampleReadyTask]).2).1.map Task.id :=
  ⟨(claim_tasks_concurrent_exclusive 1 1 0 0 [sampleReadyTask]).1 7 (by decide),
   (claim_tasks_concurrent_exclusive 1 1 0 0 [sampleReadyTask]).2 7 (by decide)⟩

/-- Outcome of one `fetch` of the GitHub search URL, indexed by the attempt
counter: HTTP 200 with a parsed body, HTTP 403/429 with an optional
Retry-After header, any other non-success status with its body text, or a
transport-level failure (fetch itself throws). -/
inductive FetchOutcome (α : Type) where
  | ok (resp : α)
  | rateLimited (retryAfter : Option Nat)
  | httpError (status : Nat) (body : String)
  | transport (msg : String)

/-- Terminal error surfaced by `searchRepositories`. -/
inductive SearchErr where
  | apiError (status : Nat) (body : String)
  | transportErr (msg : String)
  | maxRetryExceeded
deriving DecidableEq, Repr

/-- The retry loop of `searchRepositories` (client.ts).  `maxAttempts` is 5;
`fuel` is `5 - attempt`, so the `while (attempt < maxAttempts)` guard is
`fuel > 0` and the `attempt === maxAttempts - 1` test in the catch block is
`attempt = 4`.  A 403/429 increments `attempt` and continues without the
last-attempt test; the `throw` for any other non-success status happens
inside the `try`, so the surrounding `catch` treats it exactly like a
transport failure: rethrow on the last attempt, otherwise back off and
retry.  The second component counts HTTP requests issued. -/
def searchGo {α : Type} (outcomes : Nat → FetchOutcome α) :
    Nat → Nat → Nat → Except SearchErr α × Nat
  | 0, _, fetches => (Except.error SearchErr.maxRetryExceeded, fetches)
  | fuel + 1, attempt, fetches =>
    match outcomes attempt with
    | FetchOutcome.ok r => (Except.ok r, fetches + 1)
    | FetchOutcome.rateLimited _ =>
        searchGo outcomes fuel (attempt + 1) (fetches + 1)
    | FetchOutcome.httpError s b =>
        if attempt = 4 then (Except.error (SearchErr.apiError s b), fetches + 1)
        else searchGo outcomes fuel (attempt + 1) (fetches + 1)
    | FetchOutcome.transport m =>
        if attempt = 4 then
          (Except.error (SearchErr.transportErr m), fetches + 1)
        else searchGo outcomes fuel (attempt + 1) (fetches + 1)

/-- `searchRepositories`, abstracted over the per-attempt fetch outcomes.
Returns the call's result and the number of HTTP requests issued. -/
def searchRepositories {α : Type} (outcomes : Nat → FetchOutcome α) :
    Except SearchErr α × Nat :=
  searchGo outcomes 5 0 0

/-- Claim C4 (code bug): the claim says a non-success status other than
403/429 fails immediately, with no further request attempts.  In the code
the `throw` for such a status sits inside the `try`, so its own `catch`
swallows it and retries: with an HTTP 500 on the first attempt and a success
on the second, the call issues a second request and returns the success
instead of failing. -/
theorem searchNonRateLimitErrorIsRetried :
    searchRepositories
      (fun a => if a = 0 then FetchOutcome.httpError 500 "boom"
                else FetchOutcome.ok 1) = (Except.ok 1, 2) := by
  rfl

/-- Result of `processTask` (github-discover route): whether the partition
needs splitting, the next cursor to store (`null` when the task is finished),
and how many pages were fetched in this invocation. -/
structure PTResult where
  needsSplit : Bool
  nextPage : Option Nat
  pagesVisited : Nat
deriving DecidableEq, Repr

/-- The page loop of `processTask`.  The source iterates
`pageOffset = 0 .. MAX_PAGES_PER_TASK - 1` with `page = task.page +
pageOffset`; here `page` is the current page, `remaining` the iterations
left, `visited` the iterations done, and `nextAcc` the `nextPage` variable
(last assigned `page + 1`, or the initial `null`).  `items page` is the
number of items the search returned for that page (`response.items.length`,
at most 100 since `perPage` is 100).  A page with fewer than 100 items ends
the partition (`nextPage = null`); page 10 or later with exactly 100 items
sets `needsSplit`; otherwise the cursor advances. -/
def processTaskGo (items : Nat → Nat) :
    Nat → Nat → Nat → Option Nat → PTResult
  | _, 0, visited, nextAcc => ⟨false, nextAcc, visited⟩
  | page, remaining + 1, visited, _ =>
    let n := items page
    if n < 100 then ⟨false, none, visited + 1⟩
    else if 10 ≤ page ∧ n = 100 then ⟨true, none, visited + 1⟩
    else processTaskGo items (page + 1) remaining (visited + 1) (some (page + 1))

/-- `processTask` starting from the task's stored cursor. -/
def processTask (items : Nat → Nat) (maxPages startPage : Nat) : PTResult :=
  processTaskGo items startPage maxPages 0 none

/-- `updateTaskStatus` (github-discover route): always writes `status`,
`last_completed_at` (NOW() for `done`, NULL otherwise) and `last_error`;
writes `page := nextPage` when a next page exists, resets `page := 1` when
the task is `done`, and otherwise leaves the stored cursor untouched. -/
def updateTaskStatus (t : Task) (status : TaskStatus) (nextPage : Option Nat)
    (err : Option String) (now : Int) : Task :=
  let t1 := { t with
    status := status
    last_completed_at := if status = TaskStatus.done then some now else none
    last_error := err }
  match nextPage with
  | some p => { t1 with page := p }
  | none => if status = TaskStatus.done then { t1 with page := 1 } else t1

/-- The driver's status decision after a successful `processTask`:
`needs_split` if flagged, `done` if no next page, else `in_progress`. -/
def driverStatus (r : PTResult) : TaskStatus :=
  if r.needsSplit then TaskStatus.needs_split
  else if r.nextPage = none then TaskStatus.done
  else TaskStatus.in_progress

/-- One successful driver pass over a claimed task: run `processTask` from
the stored cursor, then `updateTaskStatus`.  Returns the updated row and the
number of pages fetched. -/
def runTaskOnce (items : Nat → Nat) (maxPages : Nat) (now : Int) (t : Task) :
    Task × Nat :=
  let r := processTask items maxPages t.page
  (updateTaskStatus t (driverStatus r) r.nextPage none now, r.pagesVisited)

/-- The page model behind claims C3 and C5: a partition whose true result
count is `k`, served 100 results per page while results remain, so page `p`
returns `min 100 (k - 100*(p-1))` items. -/
def pageItems (k p : Nat) : Nat := min 100 (k - 100 * (p - 1))

/-- A task as the driver receives it from `claim_github_tasks` at the start
of a fresh crawl: `in_progress`, cursor at page 1. -/
def freshClaimedTask : Task :=
  { id := 1
    created_from := ⟨2021, 6, 1⟩
    created_to := ⟨2021, 6, 30⟩
    stars_min := 100
    stars_max := some 200
    pushed_after := none
    status := TaskStatus.in_progress
    page := 1
    refresh_every_days := 7
    last_started_at := some 0
    last_completed_at := none
    last_error := none }

/-- Claim C3 (code bug): a claimed task whose 3-page budget is exhausted
with more pages remaining is stored with status `in_progress` and the
advanced cursor (page 4).  Status `in_progress` fails the claim operation's
eligibility predicate for every possible NOW(), so `claim_github_tasks`
never returns the task again and the stored cursor is never resumed — the
claimed incremental multi-page consumption cannot happen.  Concrete run: a
partition with 400 results, pages 1-3 full, budget 3. -/
theorem budget_exhausted_task_not_reclaimable :
    (runTaskOnce (pageItems 400) 3 0 freshClaimedTask).1.status =
      TaskStatus.in_progress ∧
    (runTaskOnce (pageItems 400) 3 0 freshClaimedTask).1.page = 4 ∧
    pageItems 400 4 = 100 ∧
    ∀ now2 : Int,
      eligibleForClaim now2 (runTaskOnce (pageItems 400) 3 0 freshClaimedTask).1
        = false := by
  refine ⟨by decide, by decide, by decide, ?_⟩
  intro now2
  have h : (runTaskOnce (pageItems 400) 3 0 freshClaimedTask).1.status =
      TaskStatus.in_progress := by decide
  simp [eligibleForClaim, h]

/-- Repeated driver invocations on one task, each resuming from the stored
cursor, until the task leaves `in_progress` (the spec's "crawling a
partition to completion"; claim C3 records that the real claim predicate
would in fact never hand the task back).  Accumulates pages fetched. -/
def crawlGo (items : Nat → Nat) (maxPages : Nat) (now : Int) :
    Nat → Task → Nat → Task × Nat
  | 0, t, acc => (t, acc)
  | fuel + 1, t, acc =>
    let r := runTaskOnce items maxPages now t
    if r.1.status = TaskStatus.in_progress then
      crawlGo items maxPages now fuel r.1 (acc + r.2)
    else (r.1, acc + r.2)

/-- Crawl a partition with true result count `k` to completion, from a
freshly claimed task at page 1 with the default 3-page budget.  Fuel 10
suffices: the crawler never goes past page 10. -/
def crawlToCompletion (k : Nat) : Task × Nat :=
  crawlGo (pageItems k) 3 0 10 freshClaimedTask 0

theorem pageItems_full (k p : Nat) (hk : 1000 ≤ k) (hp1 : 1 ≤ p)
    (hp : p ≤ 10) : pageItems k p = 100 := by
  have h : 100 ≤ k - 100 * (p - 1) := by omega
  simp [pageItems, Nat.min_eq_left h]

theorem processTask_full3 (items : Nat → Nat) (s : Nat) (h1 : items s = 100)
    (h2 : items (s + 1) = 100) (h3 : items (s + 2) = 100) (hs : s + 2 < 10) :
    processTask items 3 s = ⟨false, some (s + 3), 3⟩ := by
  have n1 : ¬ (10 ≤ s) := by omega
  have n2 : ¬ (10 ≤ s + 1) := by omega
  have n3 : ¬ (10 ≤ s + 2) := by omega
  simp [processTask, processTaskGo, h1, h2, h3, n1, n2, n3]

theorem processTask_split10 (items : Nat → Nat) (h : items 10 = 100) :
    processTask items 3 10 = ⟨true, none, 1⟩ := by
  simp [processTask, processTaskGo, h]

theorem crawl_needs_split (k : Nat) (hk : 1000 ≤ k) :
    (crawlToCompletion k).1.status = TaskStatus.needs_split ∧
    (crawlToCompletion k).2 = 10 := by
  have h1 := pageItems_full k 1 hk (by omega) (by omega)
  have h2 := pageItems_full k 2 hk (by omega) (by omega)
  have h3 := pageItems_full k 3 hk (by omega) (by omega)
  have h4 := pageItems_full k 4 hk (by omega) (by omega)
  have h5 := pageItems_full k 5 hk (by omega) (by omega)
  have h6 := pageItems_full k 6 hk (by omega) (by omega)
  have h7 := pageItems_full k 7 hk (by omega) (by omega)
  have h8 := pageItems_full k 8 hk (by omega) (by omega)
  have h9 := pageItems_full k 9 hk (by omega) (by omega)
  have h10 := pageItems_full k 10 hk (by omega) (by omega)
  have e1 : processTask (pageItems k) 3 1 = ⟨false, some 4, 3⟩ := by
    have := processTask_full3 (pageItems k) 1 h1 h2 h3 (by omega)
    simpa using this
  have e2 : processTask (pageItems k) 3 4 = ⟨false, some 7, 3⟩ := by
    have := processTask_full3 (pageItems k) 4 h4 h5 h6 (by omega)
    simpa using this
  have e3 : processTask (pageItems k) 3 7 = ⟨false, some 10, 3⟩ := by
    have := processTask_full3 (pageItems k) 7 h7 h8 h9 (by omega)
    simpa using this
  have e4 : processTask (pageItems k) 3 10 = ⟨true, none, 1⟩ :=
    processTask_split10 (pageItems k) h10
  constructor <;>
    simp [crawlToCompletion, crawlGo, runTaskOnce, driverStatus,
      updateTaskStatus, freshClaimedTask, e1, e2, e3, e4]

/-- Counterexample to claim C5 as stated: a partition with exactly 100
results is claimed to be consumed in ceil(100/100) = 1 page, but page 1
returns a full 100 items, so the crawler cannot tell the partition is
exhausted, advances, and fetches an empty page 2 before marking the task
`done`: 2 pages visited, not 1. -/
theorem crawl_exact_multiple_visits_extra_page :
    (crawlToCompletion 100).1.status = TaskStatus.done ∧
    (crawlToCompletion 100).2 = 2 ∧ (100 + 99) / 100 = 1 := by
  set_option maxRecDepth 20000 in decide

/-- Claim C5 (amended): for a partition whose true result count `k` is not a
multiple of 100 and is below 1000, crawling to completion visits
ceil(k/100) pages and ends `done` with the cursor reset to 1.  When `k` is a
multiple of 100 (including 0) and below 1000, one extra page is fetched to
discover exhaustion: k/100 + 1 pages, still ending `done` with cursor 1.
For `k ≥ 1000` — not only strictly above 1000: a count of exactly 1000
fills page 10 too — the crawl ends in `needs_split` once page 10 returns a
full page, after 10 page fetches. -/
theorem crawl_pagination_termination (k : Nat) :
    (k < 1000 → ¬ (100 ∣ k) →
      (crawlToCompletion k).1.status = TaskStatus.done ∧
      (crawlToCompletion k).1.page = 1 ∧
      (crawlToCompletion k).2 = (k + 99) / 100) ∧
    (k < 1000 → 100 ∣ k →
      (crawlToCompletion k).1.status = TaskStatus.done ∧
      (crawlToCompletion k).1.page = 1 ∧
      (crawlToCompletion k).2 = k / 100 + 1) ∧
    (1000 ≤ k →
      (crawlToCompletion k).1.status = TaskStatus.needs_split ∧
      (crawlToCompletion k).2 = 10) := by
  have hb : ∀ n, n < 1000 →
      ((¬ (100 ∣ n) → (crawlToCompletion n).1.status = TaskStatus.done ∧
        (crawlToCompletion n).1.page = 1 ∧
        (crawlToCompletion n).2 = (n + 99) / 100) ∧
       (100 ∣ n → (crawlToCompletion n).1.status = TaskStatus.done ∧
        (crawlToCompletion n).1.page = 1 ∧
        (crawlToCompletion n).2 = n / 100 + 1)) := by
    set_option maxRecDepth 1000000 in decide
  exact ⟨fun hk => (hb k hk).1, fun hk => (hb k hk).2,
    fun hk => crawl_needs_split k hk⟩

theorem crawl_pagination_termination_witness :
    ((crawlToCompletion 250).1.status = TaskStatus.done ∧
     (crawlToCompletion 250).1.page = 1 ∧
     (crawlToCompletion 250).2 = (250 + 99) / 100) ∧
    ((crawlToCompletion 1000).1.status = TaskStatus.needs_split ∧
     (crawlToCompletion 1000).2 = 10) :=
  ⟨(crawl_pagination_termination 250).1 (by norm_num) (by decide),
   (crawl_pagination_termination 1000).2.2 (by norm_num)⟩

/-- One row of `github_repo_snapshots` for a fixed repository: capture
timestamp and star count. -/
structure Snap where
  captured_at : Int
  stars_count : Nat
deriving DecidableEq, Repr

/-- The JS `x || null` coercion on a nullable integer column: `undefined`,
`null` and `0` all become `null`. -/
def coerceFalsyNat (x : Option Nat) : Option Nat :=
  match x with
  | some 0 => none
  | v => v

/-- Symbolic value of the floating-point score.  `computeScore` in the
source returns the real number `absGrowth * ln(1 + max(pctGrowth, 0))` on
positive growth; since `ln` has no exact executable form, the score is kept
as the pair of arguments the formula is applied to.  Two score values built
from equal arguments denote equal numbers, so equality of `ScoreVal`s is
what row equality means in the claims. -/
inductive ScoreVal where
  | zero
  | pos (absGrowth : Int) (pctGrowth : ℚ)
deriving DecidableEq, Repr

/-- `computeScore` (github-score route): growth that is zero or negative
scores exactly 0; otherwise the log formula applies. -/
def computeScore (absGrowth : Int) (pctGrowth : ℚ) : ScoreVal :=
  if absGrowth ≤ 0 then ScoreVal.zero else ScoreVal.pos absGrowth pctGrowth

/-- The `github_repo_trends` upsert payload fields that the two scoring
paths must agree on (`computed_at` is the wall clock and is excluded). -/
structure TrendRow where
  stars_now : Nat
  stars_prev : Option Nat
  prev_captured_at : Option Int
  abs_growth_14d : Option Int
  pct_growth_14d : Option ℚ
  score : Option ScoreVal
  is_new : Bool
deriving DecidableEq, Repr

/-- The RPC-results loop of the scoring endpoint, classifying one
`compute_repo_trends_14d` row.  `isNew` is the JS truthiness test
`!starsPrev`, true when `stars_prev` is null — or `0`.  The upsert payload
coerces `starsPrev || null` and passes `prev_captured_at` through. -/
def classifyRpcRow (starsNow : Nat) (starsPrev : Option Nat)
    (prevAt : Option Int) : TrendRow :=
  let isNew : Bool := match starsPrev with
    | none => true
    | some v => v = 0
  if isNew then
    { stars_now := starsNow
      stars_prev := coerceFalsyNat starsPrev
      prev_captured_at := prevAt
      abs_growth_14d := none
      pct_growth_14d := none
      score := none
      is_new := true }
  else
    let sp := starsPrev.getD 0
    let absGrowth : Int := (starsNow : Int) - sp
    let pctGrowth : ℚ := (absGrowth : ℚ) / ((max sp 1 : Nat) : ℚ)
    { stars_now := starsNow
      stars_prev := coerceFalsyNat starsPrev
      prev_captured_at := prevAt
      abs_growth_14d := some absGrowth
      pct_growth_14d := some pctGrowth
      score := some (computeScore absGrowth pctGrowth)
      is_new := false }

/-- The per-repository fallback loop of the scoring endpoint, classifying
one repository from its fetched snapshots.  Here `isNew` is
`!prevSnapshot`: whether a qualifying previous snapshot exists at all. -/
def classifyFallbackRow (starsNow : Nat) (prev : Option Snap) : TrendRow :=
  match prev with
  | none =>
    { stars_now := starsNow
      stars_prev := none
      prev_captured_at := none
      abs_growth_14d := none
      pct_growth_14d := none
      score := none
      is_new := true }
  | some p =>
    let absGrowth : Int := (starsNow : Int) - p.stars_count
    let pctGrowth : ℚ := (absGrowth : ℚ) / ((max p.stars_count 1 : Nat) : ℚ)
    { stars_now := starsNow
      stars_prev := coerceFalsyNat (some p.stars_count)
      prev_captured_at := some p.captured_at
      abs_growth_14d := some absGrowth
      pct_growth_14d := some pctGrowth
      score := some (computeScore absGrowth pctGrowth)
      is_new := false }

/-- Latest snapshot of a history: `ORDER BY captured_at DESC LIMIT 1`
(RPC: `DISTINCT ON ... ORDER BY captured_at DESC`).  Ties keep the earlier
list entry; the unique (repo, day) constraint makes ties impossible in a
real history. -/
def latestSnap (h : List Snap) : Option Snap :=
  h.foldl
    (fun acc s =>
      match acc with
      | none => some s
      | some b => if b.captured_at < s.captured_at then some s else some b)
    none

/-- Most recent snapshot captured at or before `cutoff` — the "previous"
snapshot both paths pair with the latest one (RPC:
`captured_at <= latest - INTERVAL 14 days`; fallback: `lte` on the latest's
timestamp minus 14 days). -/
def prevQualifying (h : List Snap) (cutoff : Int) : Option Snap :=
  latestSnap (h.filter (fun s => s.captured_at ≤ cutoff))

/-- Trend row the batch (RPC) path produces for one repository's history. -/
def rpcTrendRow (h : List Snap) : Option TrendRow :=
  match latestSnap h with
  | none => none
  | some ls =>
    let ps := prevQualifying h (ls.captured_at - 14)
    some (classifyRpcRow ls.stars_count (ps.map Snap.stars_count)
      (ps.map Snap.captured_at))

/-- Trend row the per-repository fallback path produces for the same
history. -/
def fallbackTrendRow (h : List Snap) : Option TrendRow :=
  match latestSnap h with
  | none => none
  | some ls =>
    some (classifyFallbackRow ls.stars_count
      (prevQualifying h (ls.captured_at - 14)))

/-- Claim C6 (code bug): take the claim's own example — previous snapshot
(14+ days older) with 0 stars, latest with 5.  The claim says the scoring
pass computes `pct_growth_14d = 5.0` with no division error.  The RPC-path
classification the claim cites instead hits the `!starsPrev` truthiness
test, which treats `stars_prev = 0` like "no previous snapshot": the row is
marked `is_new` and all growth fields stay null, so the `max(stars_prev,1)`
guard is never even reached on this path. -/
theorem scoring_rpc_zero_prev_misclassified :
    rpcTrendRow [⟨0, 0⟩, ⟨20, 5⟩] =
      some { stars_now := 5
             stars_prev := none
             prev_captured_at := some 0
             abs_growth_14d := none
             pct_growth_14d := none
             score := none
             is_new := true } := by
  decide

/-- Claim C7 (code bug): the batch path and the fallback path are claimed
to be behaviorally identical on every snapshot history.  On a history whose
qualifying previous snapshot has 0 stars they disagree: the batch path's
`!starsPrev` truthiness test marks the row `is_new` with null growth
fields, while the fallback path's `!prevSnapshot` test sees the snapshot,
computes `abs_growth = 7`, `pct_growth = 7/1` and a positive score. -/
theorem scoring_paths_disagree_on_zero_prev :
    rpcTrendRow [⟨0, 0⟩, ⟨30, 7⟩] ≠ fallbackTrendRow [⟨0, 0⟩, ⟨30, 7⟩] ∧
    fallbackTrendRow [⟨0, 0⟩, ⟨30, 7⟩] =
      some { stars_now := 7
             stars_prev := none
             prev_captured_at := some 0
             abs_growth_14d := some 7
             pct_growth_14d := some 7
             score := some (ScoreVal.pos 7 7)
             is_new := false } := by
  refine ⟨by decide, ?_⟩
  simp only [fallbackTrendRow, latestSnap, prevQualifying, classifyFallbackRow,
    computeScore, coerceFalsyNat, List.foldl, List.filter]
  norm_num

/-- Claim C10: in both scoring paths the upsert payload coerces a falsy
`stars_prev` to null (`starsPrev || null`), so no produced trend row ever
records a previous star count of zero: `stars_prev` is null or strictly
positive — even when the qualifying previous snapshot had 0 stars. -/
theorem trend_stars_prev_never_zero (starsNow : Nat) (starsPrev : Option Nat)
    (prevAt : Option Int) (prev : Option Snap) (v w : Nat) :
    ((classifyRpcRow starsNow starsPrev prevAt).stars_prev = some v →
      0 < v) ∧
    ((classifyFallbackRow starsNow prev).stars_prev = some w → 0 < w) := by
  constructor
  · intro hv
    match starsPrev with
    | none => simp [classifyRpcRow, coerceFalsyNat] at hv
    | some 0 => simp [classifyRpcRow, coerceFalsyNat] at hv
    | some (n + 1) =>
      simp [classifyRpcRow, coerceFalsyNat] at hv
      omega
  · intro hw
    match prev with
    | none => simp [classifyFallbackRow] at hw
    | some ⟨t, 0⟩ => simp [classifyFallbackRow, coerceFalsyNat] at hw
    | some ⟨t, n + 1⟩ =>
      simp [classifyFallbackRow, coerceFalsyNat] at hw
      omega

theorem trend_stars_prev_never_zero_witness :
    (classifyRpcRow 5 (some 3) (some 0)).stars_prev = some 3 ∧
    (classifyFallbackRow 5 (some ⟨0, 3⟩)).stars_prev = some 3 ∧ 0 < 3 :=
  ⟨by decide, by decide,
   (trend_stars_prev_never_zero 5 (some 3) (some 0) (some ⟨0, 3⟩) 3 3).1
     (by decide)⟩

/-- The auth check shared by the discovery and scoring endpoints:
`if (!expectedSecret || secret !== expectedSecret) return 401`.
`expectedSecret` is `process.env.CRON_SECRET` (`none` when unset; the empty
string is falsy too), `secret` the `?secret=` query parameter (`none` when
absent). -/
def checkCronAuth (expectedSecret secret : Option String) : Bool :=
  match expectedSecret with
  | none => false
  | some e => if e = "" then false else decide (secret = some e)

/-- Observable outcome of an endpoint invocation: HTTP status plus how many
store reads/writes were attempted. -/
structure EndpointOutcome where
  status : Nat
  storeOps : Nat
deriving DecidableEq, Repr

/-- The discovery endpoint's `GET` up to its auth gate: the gate runs before
any store access, so an unauthorized request returns 401 with zero store
operations; `body` is whatever the rest of the handler would do. -/
def discoveryGET (expectedSecret secret : Option String)
    (body : EndpointOutcome) : EndpointOutcome :=
  if checkCronAuth expectedSecret secret then body else ⟨401, 0⟩

/-- The scoring endpoint's `GET` up to its auth gate (same code shape). -/
def scoringGET (expectedSecret secret : Option String)
    (body : EndpointOutcome) : EndpointOutcome :=
  if checkCronAuth expectedSecret secret then body else ⟨401, 0⟩

/-- Claim C9: with `CRON_SECRET` unset, both endpoints return 401 whatever
secret the caller supplies — even `some ""` — and attempt no store
operation: the check fails closed on missing configuration. -/
theorem cron_auth_fails_closed (secret : Option String)
    (bodyD bodyS : EndpointOutcome) :
    discoveryGET none secret bodyD = ⟨401, 0⟩ ∧
    scoringGET none secret bodyS = ⟨401, 0⟩ := by
  constructor <;> simp [discoveryGET, scoringGET, checkCronAuth]

/-- Seeder configuration (task-seeder.ts `SeederConfig`).  Dates are `Ymd`
values; the JS `|| null` / `|| 7` falsy coercions on the optional fields are
modelled where they occur. -/
structure SeederConfig where
  createdFrom : Ymd
  pushedAfter : Option Ymd
  starsMin : Nat
  refreshEveryDays : Option Nat
deriving DecidableEq, Repr

/-- One star band; `max = none` is the unbounded top band. -/
structure StarBand where
  min : Nat
  max : Option Nat
deriving DecidableEq, Repr

/-- `DEFAULT_STAR_BANDS` from task-seeder.ts. -/
def DEFAULT_STAR_BANDS : List StarBand :=
  [⟨100, some 200⟩, ⟨201, some 500⟩, ⟨501, some 1000⟩,
   ⟨1001, some 5000⟩, ⟨5001, some 20000⟩, ⟨20001, none⟩]

/-- A monthly window produced by `generateMonthlyWindows`. -/
structure Window where
  w_from : Ymd
  w_to : Ymd
deriving DecidableEq, Repr

def isLeap (y : Nat) : Bool :=
  (y % 4 = 0 && !(y % 100 = 0)) || y % 400 = 0

/-- Day count of month `m` of year `y` (the JS `new Date(year, month+1, 0)`
last-day trick). -/
def daysInMonth (y m : Nat) : Nat :=
  if m = 2 then (if isLeap y then 29 else 28)
  else if m = 4 ∨ m = 6 ∨ m = 9 ∨ m = 11 then 30
  else 31

/-- The month loop of `generateMonthlyWindows`: starting at the first of
month (y, m), emit ⟨first of month, last day of month clamped to today⟩
while the first of the month is not after today, then step to the next
month.  `fuel` bounds the months considered and is chosen so the loop
condition, not the fuel, terminates the iteration. -/
def genWindowsGo (today : Ymd) : Nat → Nat → Nat → List Window
  | 0, _, _ => []
  | fuel + 1, y, m =>
    if Ymd.le ⟨y, m, 1⟩ today then
      let lastD : Ymd := ⟨y, m, daysInMonth y m⟩
      let wto := if Ymd.lt today lastD then today else lastD
      ⟨⟨y, m, 1⟩, wto⟩ ::
        (if m = 12 then genWindowsGo today fuel (y + 1) 1
         else genWindowsGo today fuel y (m + 1))
    else []

/-- `generateMonthlyWindows`: consecutive monthly windows from the start
date's month through today. -/
def generateMonthlyWindows (start today : Ymd) : List Window :=
  genWindowsGo today
    (12 * today.y + today.m + 1 - (12 * start.y + start.m)) start.y start.m

/-- The duplicate-check signature of a task row, as the seeder's key string
`from|to|stars_min|stars_max||"null"|pushed_after||"null"` identifies it:
a falsy (`0`) `stars_max` collapses to null exactly like the string
`"null"` does. -/
structure TaskKey where
  k_from : Ymd
  k_to : Ymd
  k_stars_min : Nat
  k_stars_max : Option Nat
  k_pushed_after : Option Ymd
deriving DecidableEq, Repr

/-- Key of an existing `github_search_tasks` row (the seeder's
`existingKeys` set builder). -/
def rowKey (t : Task) : TaskKey :=
  ⟨t.created_from, t.created_to, t.stars_min, coerceFalsyNat t.stars_max,
   t.pushed_after⟩

/-- Key of a candidate (window, band) tuple, with the effective lower bound
`max(config.starsMin, band.min)` and the `band.max || null` coercion. -/
def candidateKey (cfg : SeederConfig) (w : Window) (b : StarBand) : TaskKey :=
  ⟨w.w_from, w.w_to, max cfg.starsMin b.min, coerceFalsyNat b.max,
   cfg.pushedAfter⟩

/-- Band inclusion test: the loop `continue`s when
`band.max !== undefined && config.starsMin > band.max`. -/
def bandIncluded (cfg : SeederConfig) (b : StarBand) : Bool :=
  match b.max with
  | some mx => decide (cfg.starsMin ≤ mx)
  | none => true

/-- The row the seeder inserts for a fresh candidate.  `id` is a
store-assigned serial (not part of the signature); `page` takes the
schema default 1; `refresh_every_days` is `config.refreshEveryDays || 7`. -/
def mkSeedTask (cfg : SeederConfig) (w : Window) (b : StarBand) : Task :=
  { id := 0
    created_from := w.w_from
    created_to := w.w_to
    stars_min := max cfg.starsMin b.min
    stars_max := coerceFalsyNat b.max
    pushed_after := cfg.pushedAfter
    status := TaskStatus.ready
    page := 1
    refresh_every_days :=
      match cfg.refreshEveryDays with
      | some (n + 1) => n + 1
      | _ => 7
    last_started_at := none
    last_completed_at := none
    last_error := none }

/-- The candidate tuples of one seeder invocation: every monthly window
crossed with every included star band, in loop order. -/
def seederCandidates (cfg : SeederConfig) (today : Ymd) :
    List (Window × StarBand) :=
  (generateMonthlyWindows cfg.createdFrom today).flatMap
    (fun w => (DEFAULT_STAR_BANDS.filter (bandIncluded cfg)).map
      (fun b => (w, b)))

/-- The candidates whose signature is not among the pre-read existing keys
(the `existingKeys.has(key)` check; the key set is read once, before any
insert). -/
def seedFresh (cfg : SeederConfig) (today : Ymd) (existing : List Task) :
    List (Window × StarBand) :=
  (seederCandidates cfg today).filter
    (fun wb => !(decide (candidateKey cfg wb.1 wb.2 ∈ existing.map rowKey)))

/-- Result of `seedTasks`: rows inserted plus the created/skipped counts it
returns. -/
structure SeedResult where
  inserted : List Task
  created : Nat
  skipped : Nat
deriving DecidableEq, Repr

/-- `seedTasks` (task-seeder.ts): generate windows × bands, skip candidates
whose signature already exists, insert the rest as `ready` rows. -/
def seedTasks (cfg : SeederConfig) (today : Ymd) (existing : List Task) :
    SeedResult :=
  { inserted := (seedFresh cfg today existing).map
      (fun wb => mkSeedTask cfg wb.1 wb.2)
    created := ((seedFresh cfg today existing).map
      (fun wb => mkSeedTask cfg wb.1 wb.2)).length
    skipped := ((seederCandidates cfg today).filter
      (fun wb => decide (candidateKey cfg wb.1 wb.2 ∈
        existing.map rowKey))).length }

theorem coerceFalsyNat_idem (x : Option Nat) :
    coerceFalsyNat (coerceFalsyNat x) = coerceFalsyNat x := by
  match x with
  | none => rfl
  | some 0 => rfl
  | some (n + 1) => rfl

theorem rowKey_mkSeedTask (cfg : SeederConfig) (w : Window) (b : StarBand) :
    rowKey (mkSeedTask cfg w b) = candidateKey cfg w b := by
  simp [rowKey, mkSeedTask, candidateKey, coerceFalsyNat_idem]

/-- Claim C8: with identical configuration (and unchanged "today"), a
second `seedTasks` run against the store state the first run left behind
inserts zero net new tasks: every candidate signature is already present —
either it predated the first run, or the first run inserted it — so the
existence check skips every candidate. -/
theorem seeder_second_run_is_noop (cfg : SeederConfig) (today : Ymd)
    (existing : List Task) :
    (seedTasks cfg today
      (existing ++ (seedTasks cfg today existing).inserted)).inserted = [] ∧
    (seedTasks cfg today
      (existing ++ (seedTasks cfg today existing).inserted)).created = 0 := by
  have hkeys : ∀ wb ∈ seederCandidates cfg today,
      candidateKey cfg wb.1 wb.2 ∈
        (existing ++ (seedTasks cfg today existing).inserted).map rowKey := by
    intro wb hwb
    rw [List.map_append]
    by_cases h : candidateKey cfg wb.1 wb.2 ∈ existing.map rowKey
    · exact List.mem_append_left _ h
    · refine List.mem_append_right _ ?_
      have hf : wb ∈ seedFresh cfg today existing :=
        List.mem_filter.mpr ⟨hwb, by simpa using h⟩
      have hins : mkSeedTask cfg wb.1 wb.2 ∈
          (seedTasks cfg today existing).inserted :=
        List.mem_map.mpr ⟨wb, hf, rfl⟩
      have hk : rowKey (mkSeedTask cfg wb.1 wb.2) ∈
          ((seedTasks cfg today existing).inserted).map rowKey :=
        List.mem_map.mpr ⟨mkSeedTask cfg wb.1 wb.2, hins, rfl⟩
      rw [rowKey_mkSeedTask] at hk
      exact hk
  have hf2 : seedFresh cfg today
      (existing ++ (seedTasks cfg today existing).inserted) = [] := by
    refine List.filter_eq_nil_iff.mpr ?_
    intro wb hwb hcontra
    simp only [Bool.not_eq_true', decide_eq_false_iff_not] at hcontra
    exact hcontra (hkeys wb hwb)
  simp only [seedTasks] at hf2
  constructor <;> simp [seedTasks, hf2]

end CandleKeep
